import Mathlib

/-!
Verification of the lixenwraith/logger repository: a shallow embedding of the
asynchronous log pipeline (record channel, processing loop, storage manager,
serializer, configuration merge) together with theorems settling the spec
claims.  Machine integers (Go int64) are modelled as Int, sizes and counters
as Nat where the source keeps them non-negative, Go time values as
nanosecond counts, and Go strings as Lean strings (char-level; needsQuotes
ranges over runes and writeString over bytes, which agree on the escaping
relevant code points since multi-byte UTF-8 units are all above 0x7F).
Context values carried on records are used only for cancellation windows and
are not modelled.  float64 arguments to the serializer are outside the model
(floating point); the claims under study do not involve them.
-/

namespace Logger

/-- Severity levels, from interface.go (`LevelDebug int64 = -4`, ...). -/
def LevelDebug : Int := -4

/-- From interface.go: `LevelInfo int64 = 0`. -/
def LevelInfo : Int := 0

/-- From interface.go: `LevelWarn int64 = 4`. -/
def LevelWarn : Int := 4

/-- From interface.go: `LevelError int64 = 8`. -/
def LevelError : Int := 8

/-- Record flag bit for the timestamp, from part_008 (`FlagShowTimestamp int64 = 0b01`).
Flags are only ever assembled by or-ing these non-negative constants, so the
flag word is modelled as Nat. -/
def FlagShowTimestamp : Nat := 1

/-- Record flag bit for the level, from part_008 (`FlagShowLevel int64 = 0b10`). -/
def FlagShowLevel : Nat := 2

/-- Default flags, from part_008 (`FlagDefault = FlagShowTimestamp | FlagShowLevel`). -/
def FlagDefault : Nat := FlagShowTimestamp ||| FlagShowLevel

/-- A heterogeneous argument as the serializer dispatches on it
(format.go, writeTextValue / writeJSONValue type switch).  `vOther` covers
the default branch: the value already rendered through stringifyMessage
(error text, Stringer form, or the %+v debug form). -/
inductive GoVal where
  | vStr (s : String)
  | vInt (n : Int)
  | vInt64 (n : Int)
  | vBool (b : Bool)
  | vNull
  | vOther (rendered : String)
deriving DecidableEq

/-- One unit of work crossing the record channel, from part_008 `logRecord`.
The carried context is used only for producer-side cancellation and is not
modelled. -/
structure LogRec where
  flags : Nat
  timeStamp : Nat
  level : Int
  trace : String
  args : List GoVal
deriving DecidableEq

/-! ## Record channel and backpressure (part_008, sendLogRecord) -/

/-- Channel-side state visible to `sendLogRecord`: the buffered queue with its
fixed capacity, whether the channel has been closed, the `loggerDisabled`
flag, and the `droppedLogs` counter. -/
structure ChanState where
  queue : List LogRec
  cap : Nat
  closed : Bool
  disabled : Bool
  dropped : Nat
deriving DecidableEq

/-- part_008 `sendLogRecord`: a deferred recover converts the panic from a
send on a closed channel into a counted drop; if `loggerDisabled` is set the
record is dropped and counted; otherwise a select with a default clause
enqueues when the buffer has room and drops (counting) when it is full.
The function is total and returns only the new state: the caller can
neither block nor observe an error. -/
def sendLogRecord (r : LogRec) (st : ChanState) : ChanState :=
  if st.disabled then
    { st with dropped := st.dropped + 1 }
  else if st.closed then
    { st with dropped := st.dropped + 1 }
  else if st.queue.length < st.cap then
    { st with queue := st.queue ++ [r] }
  else
    { st with dropped := st.dropped + 1 }

/-! ## Lifecycle state machine (part_010: initLogger, shutdownLogger;
part_008: ensureInitialized, sendLogRecord, processLogs dequeue) -/

/-- Process-wide logger state relevant to the lifecycle claims. -/
structure GState where
  disabled : Bool
  initialized : Bool
  queue : List LogRec
  cap : Nat
  closed : Bool
  dropped : Nat
deriving DecidableEq

/-- The channel-side view of the global state. -/
def GState.chan (st : GState) : ChanState :=
  { queue := st.queue, cap := st.cap, closed := st.closed,
    disabled := st.disabled, dropped := st.dropped }

/-- Writing a channel state back into the global state. -/
def GState.withChan (st : GState) (c : ChanState) : GState :=
  { st with
    queue := c.queue
    cap := c.cap
    closed := c.closed
    disabled := c.disabled
    dropped := c.dropped }

/-- The operations that touch the lifecycle flags.  `opInit` carries whether
`applyConfig`/file creation succeed and the new channel capacity; a
successful `initLogger` replaces the channel and stores `isInitialized`,
touching `loggerDisabled` nowhere.  `opEnsureInit` is part_008
`ensureInitialized`, which stores `loggerDisabled := true` when a default
`Init` fails.  `opDequeue` is the consumer taking one record. -/
inductive Op where
  | opInit (ok : Bool) (newCap : Nat)
  | opShutdown
  | opSend (r : LogRec)
  | opEnsureInit (ok : Bool)
  | opDequeue
deriving DecidableEq

/-- One operation's effect on the lifecycle-relevant state, read off
part_010 initLogger/shutdownLogger and part_008
ensureInitialized/sendLogRecord/processLogs.  No branch of any operation
ever stores `loggerDisabled := false`; grep over the sources shows only
`loggerDisabled.Store(true)` calls. -/
def stepOp (op : Op) (st : GState) : GState :=
  match op with
  | .opInit ok newCap =>
      if ok then
        { st with initialized := true, queue := [], cap := newCap, closed := false }
      else st
  | .opShutdown =>
      if st.initialized then
        { st with disabled := true, initialized := false, closed := true }
      else st
  | .opSend r => st.withChan (sendLogRecord r st.chan)
  | .opEnsureInit ok =>
      if st.disabled then st
      else if st.initialized then st
      else if ok then
        { st with initialized := true, queue := [], closed := false }
      else
        { st with disabled := true }
  | .opDequeue => { st with queue := st.queue.drop 1 }

/-- Running a sequence of operations. -/
def runOps (ops : List Op) (st : GState) : GState :=
  ops.foldl (fun s op => stepOp op s) st

/-! ## Rotation in the processing loop (part_008 processLogs, part_013
rotateLogFile) -/

/-- Writer-side state: the tracked size (`currentSize` atomic), the actual
size of the active file, an identity counter for the active file, and the
number of rotations performed. -/
structure WriteState where
  currentSize : Int
  fileSize : Int
  fileIndex : Nat
  rotations : Nat
deriving DecidableEq

/-- part_013 `rotateLogFile`: a new file is created (size 0), the old one is
closed, and `currentSize.Store(0)` resets the tracked size. -/
def rotateLogFile (st : WriteState) : WriteState :=
  { currentSize := 0, fileSize := 0, fileIndex := st.fileIndex + 1,
    rotations := st.rotations + 1 }

/-- The write of one serialized record followed by the re-stat that stores
the file's actual size into `currentSize` (part_008 processLogs; stat
failures, which leave the previous tracked size, are not modelled). -/
def writeRecord (recLen : Nat) (st : WriteState) : WriteState :=
  { st with
    fileSize := st.fileSize + recLen
    currentSize := st.fileSize + recLen }

/-- Per-record handling in part_008 processLogs: the projected size is the
tracked size plus the serialized length, and when `maxSizeMB > 0` and the
projection exceeds `maxSizeMB*1024*1024` the file is rotated before the
record is written. -/
def processRecord (maxSizeMB : Int) (recLen : Nat) (st : WriteState) : WriteState :=
  if maxSizeMB > 0 ∧ st.currentSize + recLen > maxSizeMB * 1024 * 1024 then
    writeRecord recLen (rotateLogFile st)
  else
    writeRecord recLen st

/-- Folding a sequence of record lengths through the processing loop. -/
def processAll (maxSizeMB : Int) (lens : List Nat) (st : WriteState) : WriteState :=
  lens.foldl (fun s l => processRecord maxSizeMB l s) st

/-! ## Serializer (format.go) -/

/-- format.go `levelToString`: the four defined levels, and
`fmt.Sprintf("UNKNOWN (%d)", level)` for everything else. -/
def levelToString (level : Int) : String :=
  if level = LevelDebug then "DEBUG"
  else if level = LevelInfo then "INFO"
  else if level = LevelWarn then "WARN"
  else if level = LevelError then "ERROR"
  else "UNKNOWN (" ++ toString level ++ ")"

/-- format.go `writeString`, on the char list of the string: each code unit
below 0x20 and each double quote or backslash is preceded by a backslash.
The Go loop walks bytes; on a char-level model this agrees, because every
byte of a multi-byte UTF-8 char is at least 0x80 and hence never escaped. -/
def writeStringAux : List Char → List Char
  | [] => []
  | c :: rest =>
      (if c < ' ' ∨ c = '"' ∨ c = '\\' then ['\\', c] else [c]) ++
        writeStringAux rest

/-- format.go `writeString` on a Go string. -/
def writeString (s : String) : List Char :=
  writeStringAux s.toList

/-- format.go `needsQuotes`: the empty string needs quotes, and otherwise a
string needs quotes when some rune is at most `' '` or is a double quote or
a backslash. -/
def needsQuotes (s : String) : Bool :=
  if s.length = 0 then true
  else s.toList.any fun c => c ≤ ' ' || c = '"' || c = '\\'

/-- format.go `writeTextValue` on a string-valued argument: quoted via
`writeString` when `needsQuotes` holds, written via `writeString` bare
otherwise. -/
def writeTextString (s : String) : List Char :=
  if needsQuotes s then '"' :: (writeString s ++ ['"'])
  else writeString s

/-- format.go `writeTextValue`: the type switch over an argument in text
format. -/
def writeTextValue : GoVal → List Char
  | .vStr s => writeTextString s
  | .vInt n => (toString n).toList
  | .vInt64 n => (toString n).toList
  | .vBool b => (if b then "true" else "false").toList
  | .vNull => "null".toList
  | .vOther rendered => writeTextString rendered

/-- format.go `writeJSONValue`: strings and fallback values are quoted and
escaped, numbers/booleans/null are written natively. -/
def writeJSONValue : GoVal → List Char
  | .vStr s => '"' :: (writeString s ++ ['"'])
  | .vInt n => (toString n).toList
  | .vInt64 n => (toString n).toList
  | .vBool b => (if b then "true" else "false").toList
  | .vNull => "null".toList
  | .vOther rendered => '"' :: (writeString rendered ++ ['"'])

/-- The `i > 0` iterations of the fields loop in serializeJSON: a comma
before every element after the first. -/
def jsonFieldsRest : List GoVal → List Char
  | [] => []
  | a :: rest => ',' :: (writeJSONValue a ++ jsonFieldsRest rest)

/-- The fields loop of format.go serializeJSON: elements in argument order,
comma-separated. -/
def jsonFields : List GoVal → List Char
  | [] => []
  | a :: rest => writeJSONValue a ++ jsonFieldsRest rest

/-- format.go `serializeJSON`: one JSON object emitted left to right; the
timestamp argument stands for the already-rendered RFC3339Nano form of the
record's capture time (time.Format is a library call).  After each of the
time/level/trace chunks the code appends a comma exactly when a later chunk
will be emitted. -/
def serializeJSON (flags : Nat) (timestamp : String) (level : Int)
    (trace : String) (args : List GoVal) : List Char :=
  ['{'] ++
  (if flags &&& FlagShowTimestamp ≠ 0 then
    "\"time\":\"".toList ++ timestamp.toList ++ ['"'] ++
      (if flags &&& FlagShowLevel ≠ 0 ∨ trace ≠ "" ∨ args.length > 0 then [','] else [])
  else []) ++
  (if flags &&& FlagShowLevel ≠ 0 then
    "\"level\":\"".toList ++ (levelToString level).toList ++ ['"'] ++
      (if trace ≠ "" ∨ args.length > 0 then [','] else [])
  else []) ++
  (if trace ≠ "" then
    "\"trace\":\"".toList ++ trace.toList ++ ['"'] ++
      (if args.length > 0 then [','] else [])
  else []) ++
  (if args.length > 0 then
    "\"fields\":[".toList ++ jsonFields args ++ [']']
  else []) ++
  ['}', '\n']

/-- The `i > 0` iterations of the text fields loop: a space before every
element after the first. -/
def textFieldsRest : List GoVal → List Char
  | [] => []
  | a :: rest => ' ' :: (writeTextValue a ++ textFieldsRest rest)

/-- The fields loop of format.go serializeText. -/
def textFields : List GoVal → List Char
  | [] => []
  | a :: rest => writeTextValue a ++ textFieldsRest rest

/-- format.go `serializeText`: optional timestamp, level and trace, each
followed by one space, then the space-separated arguments and a newline. -/
def serializeText (flags : Nat) (timestamp : String) (level : Int)
    (trace : String) (args : List GoVal) : List Char :=
  (if flags &&& FlagShowTimestamp ≠ 0 then timestamp.toList ++ [' '] else []) ++
  (if flags &&& FlagShowLevel ≠ 0 then (levelToString level).toList ++ [' '] else []) ++
  (if trace ≠ "" then trace.toList ++ [' '] else []) ++
  textFields args ++ ['\n']

/-- The four chunks of the JSON object in their fixed order, each present
exactly when its flag is set or its value is non-empty.  This is the
specification-shaped description of serializeJSON used to state claim C6:
the code is proved equal to the comma-join of these chunks. -/
def jsonKeyChunks (flags : Nat) (timestamp : String) (level : Int)
    (trace : String) (args : List GoVal) : List (List Char) :=
  (if flags &&& FlagShowTimestamp ≠ 0 then
    ["\"time\":\"".toList ++ timestamp.toList ++ ['"']] else []) ++
  (if flags &&& FlagShowLevel ≠ 0 then
    ["\"level\":\"".toList ++ (levelToString level).toList ++ ['"']] else []) ++
  (if trace ≠ "" then
    ["\"trace\":\"".toList ++ trace.toList ++ ['"']] else []) ++
  (if args.length > 0 then
    ["\"fields\":[".toList ++ jsonFields args ++ [']']] else [])

/-- The comma-joined object assembled from the chunks. -/
def jsonCanonical (flags : Nat) (timestamp : String) (level : Int)
    (trace : String) (args : List GoVal) : List Char :=
  '{' :: (List.intercalate [','] (jsonKeyChunks flags timestamp level trace args) ++ ['}', '\n'])

/-- Decidable substring test on char lists, used to state that an output
does not contain a claimed key. -/
def hasSub (pat : List Char) : List Char → Bool
  | [] => pat.isEmpty
  | l@(_ :: rest) => (pat.isPrefixOf l) || hasSub pat rest

/-- The escaping of one char as claim C7 describes it for the amended
statement: a backslash prefix exactly on chars below 0x20, the double quote
and the backslash. -/
def escapeChar (c : Char) : List Char :=
  if c < ' ' ∨ c = '"' ∨ c = '\\' then ['\\', c] else [c]

/-- Unicode-style control predicate used to formalize the words "control
character" of claim C7: the C0 range below 0x20 together with DEL and the
C1 range 0x7F-0x9F. -/
def isControlChar (c : Char) : Bool :=
  c.toNat < 0x20 || (0x7F ≤ c.toNat && c.toNat ≤ 0x9F)

/-- ASCII whitespace predicate used to formalize the word "whitespace" of
claim C7. -/
def isWhitespaceChar (c : Char) : Bool :=
  c = ' ' || c = '\t' || c = '\n' || c = '\r' ||
    c.toNat = 0x0B || c.toNat = 0x0C

/-- Claim C7's quoting condition taken at its words: empty, or containing
whitespace, a control character, a double quote, or a backslash. -/
def claimNeedsQuotes (s : String) : Bool :=
  s.length = 0 ||
    s.toList.any fun c => isWhitespaceChar c || isControlChar c || c = '"' || c = '\\'

/-! ## Configuration merge and application (part_010) -/

/-- The Go zero value of a configuration field's type, as `var zero T`
produces it in part_010 getConfigValue. -/
class GoZero (T : Type) where
  zero : T

instance : GoZero Int := ⟨0⟩

instance : GoZero Nat := ⟨0⟩

instance : GoZero String := ⟨""⟩

instance : GoZero Bool := ⟨false⟩

instance : GoZero ℚ := ⟨0⟩

/-- part_010 `getConfigValue`: the override value unless it equals the
type's zero value, in which case the base value is kept. -/
def getConfigValue {T : Type} [DecidableEq T] [GoZero T]
    (defaultVal cfgVal : T) : T :=
  if cfgVal = GoZero.zero then defaultVal else cfgVal

/-- part_010 `LoggerConfig`.  The two retention fields are float64 in Go and
are modelled as rationals; their only use in the merge is comparison with
the zero value. -/
structure LoggerConfig where
  Level : Int
  Name : String
  Directory : String
  Format : String
  ShowTimestamp : Bool
  ShowLevel : Bool
  BufferSize : Int
  MaxSizeMB : Int
  MaxTotalSizeMB : Int
  MinDiskFreeMB : Int
  FlushTimer : Int
  TraceDepth : Int
  RetentionPeriod : ℚ
  RetentionCheckInterval : ℚ
deriving DecidableEq

/-- part_010 `mergeConfigs`: every field merged independently through
getConfigValue. -/
def mergeConfigs (base override : LoggerConfig) : LoggerConfig where
  Level := getConfigValue base.Level override.Level
  Name := getConfigValue base.Name override.Name
  Directory := getConfigValue base.Directory override.Directory
  Format := getConfigValue base.Format override.Format
  ShowTimestamp := getConfigValue base.ShowTimestamp override.ShowTimestamp
  ShowLevel := getConfigValue base.ShowLevel override.ShowLevel
  BufferSize := getConfigValue base.BufferSize override.BufferSize
  MaxSizeMB := getConfigValue base.MaxSizeMB override.MaxSizeMB
  MaxTotalSizeMB := getConfigValue base.MaxTotalSizeMB override.MaxTotalSizeMB
  MinDiskFreeMB := getConfigValue base.MinDiskFreeMB override.MinDiskFreeMB
  FlushTimer := getConfigValue base.FlushTimer override.FlushTimer
  TraceDepth := getConfigValue base.TraceDepth override.TraceDepth
  RetentionPeriod := getConfigValue base.RetentionPeriod override.RetentionPeriod
  RetentionCheckInterval :=
    getConfigValue base.RetentionCheckInterval override.RetentionCheckInterval

/-- The running state applyConfig writes into the package-level variables on
success.  Durations are kept in the units the config carries (milliseconds
for the flush timer; the retention durations as rationals in hours and
minutes scaled to nanoseconds). -/
structure RunningState where
  flags : Nat
  directory : String
  name : String
  format : String
  maxSizeMB : Int
  maxTotalSizeMB : Int
  minDiskFreeMB : Int
  flushTimerMs : Int
  traceDepth : Int
  logLevel : Int
  bufferSize : Int
  retentionPeriodNs : ℚ
  retentionCheckNs : ℚ
deriving DecidableEq

/-- part_010 `applyConfig`: assembles the flag word, defaults an empty
directory to ".", substitutes 1000 for a non-positive buffer size, and
fails exactly on a negative max-total-size or min-disk-free or a trace
depth outside 0..10.  The partial global mutation the Go code performs
before a validation failure does not affect which configurations fail and
is not modelled. -/
def applyConfig (cfg : LoggerConfig) : Except String RunningState :=
  let flagWord : Nat :=
    (if cfg.ShowLevel then FlagShowLevel else 0) |||
      (if cfg.ShowTimestamp then FlagShowTimestamp else 0)
  let dir := if cfg.Directory = "" then "." else cfg.Directory
  let newBufferSize := if cfg.BufferSize < 1 then 1000 else cfg.BufferSize
  if cfg.MaxTotalSizeMB < 0 ∨ cfg.MinDiskFreeMB < 0 then
    .error "invalid disk space configuration"
  else if cfg.TraceDepth < 0 ∨ cfg.TraceDepth > 10 then
    .error "invalid trace depth: must be between 0 and 10"
  else
    .ok
      { flags := flagWord
        directory := dir
        name := cfg.Name
        format := cfg.Format
        maxSizeMB := cfg.MaxSizeMB
        maxTotalSizeMB := cfg.MaxTotalSizeMB
        minDiskFreeMB := cfg.MinDiskFreeMB
        flushTimerMs := cfg.FlushTimer
        traceDepth := cfg.TraceDepth
        logLevel := cfg.Level
        bufferSize := newBufferSize
        retentionPeriodNs := cfg.RetentionPeriod * 3600000000000
        retentionCheckNs := cfg.RetentionCheckInterval * 60000000000 }

/-- True exactly when configuration application returned an error. -/
def applyConfigFails (cfg : LoggerConfig) : Prop :=
  ∃ e, applyConfig cfg = .error e

instance (cfg : LoggerConfig) : Decidable (applyConfigFails cfg) := by
  unfold applyConfigFails
  cases h : applyConfig cfg with
  | error e => exact .isTrue ⟨e, rfl⟩
  | ok r => exact .isFalse (by simp [h])

/-! ## Log file naming (part_013: generateLogFileName, pow10) -/

/-- part_013 `pow10`: the iterative power of ten. -/
def pow10 : Nat → Int
  | 0 => 1
  | n + 1 => pow10 n * 10

/-- Zero padding of a rendered number to the precision width, as the
`%0<p>d` format verb produces it for the non-negative subsecond values. -/
def padZeros (width : Nat) (s : String) : String :=
  String.mk (List.replicate (width - s.length) '0') ++ s

/-- The candidate filename at a given subsecond precision.  Precision 1 is
the initial `<name>_<stamp>.<tenths>.log` form; precisions 2..9 use the
zero-padded `<name>_<stamp>_<subsec>.log` form of the widening loop.
`nanos` is the record's UnixNano value (non-negative in the modelled era),
and `baseTimestamp` stands for the `060102_150405`-formatted stamp. -/
def candidateName (baseName baseTimestamp : String) (nanos : Nat)
    (precision : Nat) : String :=
  if precision = 1 then
    baseName ++ "_" ++ baseTimestamp ++ "." ++
      toString (nanos % 1000000000 / 100000000) ++ ".log"
  else
    baseName ++ "_" ++ baseTimestamp ++ "_" ++
      padZeros precision
        (toString ((nanos % 1000000000 : Int) / pow10 (9 - precision))) ++ ".log"

/-- The widening loop: try each precision in order, returning the first
candidate that does not already exist. -/
def genTry (existing : List String) (baseName baseTimestamp : String)
    (nanos : Nat) : List Nat → Option String
  | [] => none
  | p :: rest =>
      let c := candidateName baseName baseTimestamp nanos p
      if c ∈ existing then genTry existing baseName baseTimestamp nanos rest
      else some c

/-- The precisions generateLogFileName tries, in order: the tenths form,
then the widened forms for 2..9 digits. -/
def precisionList : List Nat := [1, 2, 3, 4, 5, 6, 7, 8, 9]

/-- part_013 `generateLogFileName`: the initial tenth-of-second candidate,
then digit-by-digit widening up to nanoseconds, `none` when every
precision collides (the hard error that makes new-file creation fail).
`existing` is the set of filenames already present in the log directory
(os.Stat probes the joined path; all candidates live in the one
directory). -/
def generateLogFileName (existing : List String)
    (baseName baseTimestamp : String) (nanos : Nat) : Option String :=
  genTry existing baseName baseTimestamp nanos precisionList

/-! ## Storage manager: disk-space enforcement and retention (storage.go) -/

/-- A directory entry as the storage code reads it: name, modification time
in nanoseconds, size in bytes.  Only plain files appear (the Go loops skip
directories). -/
structure FileEntry where
  name : String
  modTime : Nat
  size : Int
deriving DecidableEq

/-- Whether the char list `p` begins the char list `l`. -/
def listBegins [DecidableEq α] : List α → List α → Bool
  | [], _ => true
  | _ :: _, [] => false
  | p :: ps, x :: xs => if p = x then listBegins ps xs else false

/-- strings.HasPrefix on the char level. -/
def strBegins (p s : String) : Bool :=
  listBegins p.toList s.toList

/-- filepath.Ext: the suffix starting at the final dot of the name, empty
when the name has no dot (our names carry no path separators). -/
def goExt (s : String) : String :=
  let r := s.toList.reverse
  let tail := r.takeWhile (fun c => c != '.')
  if tail.length = r.length then ""
  else String.mk ('.' :: tail.reverse)

/-- storage.go `getLogDirSize`: the total size of the entries whose
extension matches the configured one. -/
def getLogDirSize (ext : String) (dir : List FileEntry) : Int :=
  (dir.filter fun f => goExt f.name == "." ++ ext).foldl (fun a f => a + f.size) 0

/-- A file eligible for oldest-first eviction in storage.go cleanOldLogs:
extension matches and it is not the active file. -/
def eligibleOld (ext active : String) (f : FileEntry) : Bool :=
  goExt f.name == "." ++ ext && f.name != active

/-- Stable insertion into a modification-time-ascending list.  storage.go
sorts with sort.Slice and the Before comparator; ties are ordered
arbitrarily there, and this model picks the stable order. -/
def insertByTime (f : FileEntry) : List FileEntry → List FileEntry
  | [] => [f]
  | g :: rest =>
      if f.modTime < g.modTime then f :: g :: rest else g :: insertByTime f rest

/-- Sorting the eviction candidates by modification time. -/
def sortByTime : List FileEntry → List FileEntry
  | [] => []
  | f :: rest => insertByTime f (sortByTime rest)

/-- The deletion loop of storage.go cleanOldLogs: walk the sorted
candidates, stop once the freed total reaches the requirement, and return
the deleted names with the freed total (os.Remove failures, which the loop
skips, are not modelled). -/
def removeUntil (required : Int) : List FileEntry → Int → List String × Int
  | [], freed => ([], freed)
  | f :: rest, freed =>
      if freed ≥ required then ([], freed)
      else
        let r := removeUntil required rest (freed + f.size)
        (f.name :: r.1, r.2)

/-- storage.go `cleanOldLogs`: error (second component true) when no
eligible file exists or the deletions freed less than required; the first
component is the directory after the deletions. -/
def cleanOldLogs (ext active : String) (required : Int)
    (dir : List FileEntry) : List FileEntry × Bool :=
  let logs := sortByTime (dir.filter (eligibleOld ext active))
  if logs.isEmpty then (dir, true)
  else
    let r := removeUntil required logs 0
    (dir.filter (fun f => !(r.1.contains f.name)), r.2 < required)

/-- The disk-management slice of the running configuration. -/
structure DiskCfg where
  maxTotalSizeMB : Int
  minDiskFreeMB : Int
  ext : String
  active : String
deriving DecidableEq

/-- The state checkDiskSpace reads and writes: the directory contents and
the `diskFullLogged` flag. -/
structure DiskState where
  dir : List FileEntry
  diskFullLogged : Bool
deriving DecidableEq

/-- storage.go `checkDiskSpace`, with the volume's free byte count supplied
per call.  The returned Bool is true exactly when the call reports the
disk-full error.  The translation keeps the source's control flow: when
cleanOldLogs fails and `diskFullLogged` is already set, execution falls
through to the trailing `diskFullLogged.Store(false)` and the call returns
without error. -/
def checkDiskSpace (cfg : DiskCfg) (free : Int) (st : DiskState) :
    DiskState × Bool :=
  if cfg.maxTotalSizeMB = 0 ∧ cfg.minDiskFreeMB = 0 then (st, false)
  else
    let dirSize := getLogDirSize cfg.ext st.dir
    let minFree := cfg.minDiskFreeMB * 1024 * 1024
    let maxTotal := cfg.maxTotalSizeMB * 1024 * 1024
    if free < minFree ∨ (maxTotal > 0 ∧ dirSize > maxTotal) then
      let required0 : Int := if free < minFree then minFree - free else 0
      let required : Int :=
        if maxTotal > 0 ∧ dirSize > maxTotal ∧ dirSize - maxTotal > required0 then
          dirSize - maxTotal
        else required0
      let r := cleanOldLogs cfg.ext cfg.active required st.dir
      if r.2 then
        if !st.diskFullLogged then
          ({ dir := r.1, diskFullLogged := true }, true)
        else
          ({ dir := r.1, diskFullLogged := false }, false)
      else
        ({ dir := r.1, diskFullLogged := false }, false)
    else
      ({ st with diskFullLogged := false }, false)

/-- A sequence of disk-space checks with the respective free-space
readings, collecting each call's error outcome. -/
def checkDiskSpaceRun (cfg : DiskCfg) (frees : List Int) (st : DiskState) :
    DiskState × List Bool :=
  match frees with
  | [] => (st, [])
  | free :: rest =>
      let r := checkDiskSpace cfg free st
      let more := checkDiskSpaceRun cfg rest r.1
      (more.1, r.2 :: more.2)

/-- storage.go `updateEarliestFileTime`: the fold over the directory that
tracks the earliest modification time among files carrying the
`<name>_` base prefix and the configured extension, the active file
excluded; the Go zero time is the zero count. -/
def updateEarliestFileTime (baseName ext active : String)
    (dir : List FileEntry) : Nat :=
  dir.foldl
    (fun earliest f =>
      if !(strBegins (baseName ++ "_") f.name) then earliest
      else if goExt f.name != "." ++ ext then earliest
      else if f.name = active then earliest
      else if earliest = 0 ∨ f.modTime < earliest then f.modTime
      else earliest)
    0

/-- storage.go `cleanExpiredLogs`: every entry whose extension matches and
whose modification time equals the oldest timestamp is removed, the active
file excepted.  The `break` after a removal terminates only the
surrounding select case, so the walk continues over the remaining
entries. -/
def cleanExpiredLogs (ext active : String) (oldest : Nat)
    (dir : List FileEntry) : List FileEntry :=
  dir.filter fun f =>
    !(goExt f.name == "." ++ ext && f.modTime == oldest && f.name != active)

/-- The retention sweep claim C1 describes, taken at its words: only files
that also carry the configured base-name prefix are deleted. -/
def claimedSweepDir (baseName ext active : String) (oldest : Nat)
    (dir : List FileEntry) : List FileEntry :=
  dir.filter fun f =>
    !(strBegins (baseName ++ "_") f.name && goExt f.name == "." ++ ext &&
      f.modTime == oldest && f.name != active)

/-- The retention-relevant state of the processing loop. -/
structure RetState where
  dir : List FileEntry
  earliest : Nat
deriving DecidableEq

/-- The retention-timer case of part_008 processLogs: when retention is
enabled, the tracked earliest timestamp is valid, and the elapsed time
exceeds the retention period, run cleanExpiredLogs and, on its success
(removals cannot fail in the model), rescan the directory for the new
earliest timestamp. -/
def retentionTick (retentionPeriodNs : Int) (baseName ext active : String)
    (now : Nat) (st : RetState) : RetState :=
  if 0 < retentionPeriodNs then
    if st.earliest ≠ 0 ∧ (now : Int) - (st.earliest : Int) > retentionPeriodNs then
      let dir2 := cleanExpiredLogs ext active st.earliest st.dir
      { dir := dir2, earliest := updateEarliestFileTime baseName ext active dir2 }
    else st
  else st

/-! ## Helper lemmas -/

/-- The channel send never touches the disabled flag. -/
theorem sendLogRecord_disabled (r : LogRec) (c : ChanState) :
    (sendLogRecord r c).disabled = c.disabled := by
  unfold sendLogRecord
  split
  · rfl
  · split
    · rfl
    · split <;> rfl

/-- A send into a disabled channel state only bumps the drop counter. -/
theorem sendLogRecord_of_disabled (r : LogRec) (c : ChanState)
    (h : c.disabled = true) :
    sendLogRecord r c = { c with dropped := c.dropped + 1 } := by
  unfold sendLogRecord
  rw [if_pos h]

/-- No operation of the lifecycle machine clears the disabled flag. -/
theorem stepOp_disabled (op : Op) (st : GState) (h : st.disabled = true) :
    (stepOp op st).disabled = true := by
  cases op with
  | opInit ok newCap =>
      simp only [stepOp]
      split <;> simp [h]
  | opShutdown =>
      simp only [stepOp]
      split <;> simp [h]
  | opSend r =>
      simp only [stepOp]
      simp [GState.withChan, GState.chan, sendLogRecord_disabled, h]
  | opEnsureInit ok =>
      simp only [stepOp]
      rw [if_pos h]
      exact h
  | opDequeue =>
      simpa [stepOp] using h

/-- Writing a record does not rotate. -/
theorem writeRecord_rotations (recLen : Nat) (st : WriteState) :
    (writeRecord recLen st).rotations = st.rotations := rfl

/-- A send in any disabled global state only bumps the drop counter. -/
theorem stepOp_send_disabled (r : LogRec) (g : GState) (h : g.disabled = true) :
    stepOp (.opSend r) g = { g with dropped := g.dropped + 1 } := by
  obtain ⟨d, i, q, cp, cl, dr⟩ := g
  replace h : d = true := h
  subst h
  simp [stepOp, GState.withChan, GState.chan, sendLogRecord_of_disabled]

/-- With rotation disabled, a single processed record never rotates. -/
theorem processRecord_zero_rotations (recLen : Nat) (st : WriteState) :
    (processRecord 0 recLen st).rotations = st.rotations := by
  unfold processRecord
  rw [if_neg]
  · rfl
  · rintro ⟨h, -⟩
    exact absurd h (by norm_num)

/-- With rotation disabled, no sequence of processed records rotates. -/
theorem processAll_zero_rotations (lens : List Nat) (st : WriteState) :
    (processAll 0 lens st).rotations = st.rotations := by
  induction lens generalizing st with
  | nil => rfl
  | cons l rest ih =>
      simpa [processAll, List.foldl_cons, processRecord_zero_rotations] using
        (ih (processRecord 0 l st)).trans (processRecord_zero_rotations l st)

/-! ## Claim theorems -/

/-- C3: a record handed to sendLogRecord never blocks the caller and never
yields an error (the operation is a total function into the new state); when
the channel is at capacity, and likewise when it has already been closed
mid-shutdown, the record is dropped, the queue is untouched, and droppedLogs
is incremented by exactly one. -/
theorem C3_send_drop_on_full_or_closed (r : LogRec) (st : ChanState)
    (h : st.closed = true ∨ st.cap ≤ st.queue.length) :
    sendLogRecord r st = { st with dropped := st.dropped + 1 } := by
  unfold sendLogRecord
  by_cases hd : st.disabled = true
  · rw [if_pos hd]
  · rw [if_neg hd]
    rcases h with h | h
    · rw [if_pos h]
    · by_cases hc : st.closed = true
      · rw [if_pos hc]
      · rw [if_neg hc, if_neg (by omega)]

/-- Witness for C3 at a zero-capacity open channel and at a closed
channel. -/
theorem C3_send_drop_witness :
    sendLogRecord ⟨0, 0, 0, "", []⟩ ⟨[], 0, false, false, 5⟩ =
        ⟨[], 0, false, false, 6⟩ ∧
      sendLogRecord ⟨0, 0, 0, "", []⟩ ⟨[], 7, true, false, 5⟩ =
        ⟨[], 7, true, false, 6⟩ :=
  ⟨C3_send_drop_on_full_or_closed _ _ (Or.inr (by decide)),
    C3_send_drop_on_full_or_closed _ _ (Or.inl rfl)⟩

/-- C4: once loggerDisabled is set (as a completed shutdownLogger sets it),
no sequence of lifecycle operations, successful re-initialization included,
ever clears it, and a send at any reachable later state drops and counts the
record instead of enqueueing it. -/
theorem C4_disabled_is_permanent (ops : List Op) (st : GState) (r : LogRec)
    (h : st.disabled = true) :
    (runOps ops st).disabled = true ∧
      stepOp (.opSend r) (runOps ops st) =
        { runOps ops st with dropped := (runOps ops st).dropped + 1 } := by
  have hrun : (runOps ops st).disabled = true := by
    induction ops generalizing st with
    | nil => exact h
    | cons op rest ih => exact ih (stepOp op st) (stepOp_disabled op st h)
  exact ⟨hrun, stepOp_send_disabled r (runOps ops st) hrun⟩

/-- Witness for C4: after a shutdown-disabled state, a successful
re-initialization and other traffic, the logger still drops and counts. -/
theorem C4_disabled_is_permanent_witness :
    (runOps [.opInit true 8, .opSend ⟨3, 0, 0, "", []⟩, .opEnsureInit true,
        .opDequeue] ⟨true, false, [], 4, true, 2⟩).disabled = true ∧
      stepOp (.opSend ⟨3, 0, 0, "", []⟩)
          (runOps [.opInit true 8, .opSend ⟨3, 0, 0, "", []⟩, .opEnsureInit true,
            .opDequeue] ⟨true, false, [], 4, true, 2⟩) =
        { runOps [.opInit true 8, .opSend ⟨3, 0, 0, "", []⟩, .opEnsureInit true,
            .opDequeue] ⟨true, false, [], 4, true, 2⟩ with
          dropped :=
            (runOps [.opInit true 8, .opSend ⟨3, 0, 0, "", []⟩, .opEnsureInit true,
              .opDequeue] ⟨true, false, [], 4, true, 2⟩).dropped + 1 } :=
  C4_disabled_is_permanent
    [.opInit true 8, .opSend ⟨3, 0, 0, "", []⟩, .opEnsureInit true, .opDequeue]
    ⟨true, false, [], 4, true, 2⟩ ⟨3, 0, 0, "", []⟩ rfl

/-- C5: with MaxSizeMB positive, a record whose serialized length pushes the
tracked size beyond MaxSizeMB*1024*1024 causes exactly one rotation before
it is written — the rotation resets the tracked size to zero, so the new
file ends the step at exactly that record's length — and with MaxSizeMB
zero no sequence of records ever rotates. -/
theorem C5_rotation_boundary (maxSizeMB : Int) (st : WriteState)
    (recLen : Nat) (lens : List Nat) :
    (0 < maxSizeMB → st.currentSize + recLen > maxSizeMB * 1024 * 1024 →
      processRecord maxSizeMB recLen st = writeRecord recLen (rotateLogFile st) ∧
      (rotateLogFile st).currentSize = 0 ∧
      (processRecord maxSizeMB recLen st).rotations = st.rotations + 1 ∧
      (processRecord maxSizeMB recLen st).fileIndex = st.fileIndex + 1 ∧
      (processRecord maxSizeMB recLen st).fileSize = recLen ∧
      (processRecord maxSizeMB recLen st).currentSize = recLen) ∧
    ((processAll 0 lens st).rotations = st.rotations) := by
  constructor
  · intro hpos hover
    have hc : 0 < maxSizeMB ∧ st.currentSize + (recLen : Int) > maxSizeMB * 1024 * 1024 :=
      ⟨hpos, hover⟩
    unfold processRecord
    rw [if_pos hc]
    refine ⟨rfl, rfl, rfl, rfl, ?_, ?_⟩ <;>
      simp [writeRecord, rotateLogFile]
  · exact processAll_zero_rotations lens st

/-- Witness for C5 at tracked size one byte under a 1 MB cap and a
two-byte record, plus a record sequence under MaxSizeMB = 0. -/
theorem C5_rotation_boundary_witness :
    processRecord 1 2 ⟨1048575, 1048575, 3, 7⟩ =
        writeRecord 2 (rotateLogFile ⟨1048575, 1048575, 3, 7⟩) ∧
      (processRecord 1 2 ⟨1048575, 1048575, 3, 7⟩).rotations = 7 + 1 ∧
      (processRecord 1 2 ⟨1048575, 1048575, 3, 7⟩).fileSize = 2 ∧
      (processAll 0 [5, 6, 7] ⟨1048575, 1048575, 3, 7⟩).rotations = 7 :=
  ⟨((C5_rotation_boundary 1 ⟨1048575, 1048575, 3, 7⟩ 2 [5, 6, 7]).1
      (by decide) (by decide)).1,
    ((C5_rotation_boundary 1 ⟨1048575, 1048575, 3, 7⟩ 2 [5, 6, 7]).1
      (by decide) (by decide)).2.2.1,
    ((C5_rotation_boundary 1 ⟨1048575, 1048575, 3, 7⟩ 2 [5, 6, 7]).1
      (by decide) (by decide)).2.2.2.2.1,
    (C5_rotation_boundary 1 ⟨1048575, 1048575, 3, 7⟩ 2 [5, 6, 7]).2⟩

/-- C9: applyConfig fails exactly when the merged max-total-size or
min-disk-free is negative or the trace depth lies outside 0..10, and an
empty merged directory is replaced by "." instead of failing. -/
theorem C9_applyConfig_validation (cfg : LoggerConfig) :
    (applyConfigFails cfg ↔
      cfg.MaxTotalSizeMB < 0 ∨ cfg.MinDiskFreeMB < 0 ∨
        cfg.TraceDepth < 0 ∨ cfg.TraceDepth > 10) ∧
    (∀ r, applyConfig cfg = .ok r → cfg.Directory = "" → r.directory = ".") := by
  constructor
  · unfold applyConfigFails applyConfig
    by_cases h1 : cfg.MaxTotalSizeMB < 0 ∨ cfg.MinDiskFreeMB < 0
    · simp only [if_pos h1]
      simp [h1]
      tauto
    · by_cases h2 : cfg.TraceDepth < 0 ∨ cfg.TraceDepth > 10
      · simp only [if_neg h1, if_pos h2]
        simp [h2]
      · simp only [if_neg h1, if_neg h2]
        simp
        omega
  · intro r hr hd
    simp only [applyConfig] at hr
    split at hr
    · exact absurd hr (by simp)
    · split at hr
      · exact absurd hr (by simp)
      · rw [Except.ok.injEq] at hr
        subst hr
        simp [hd]

/-- Witness for C9: a configuration with zero thresholds, trace depth 0 and
an empty directory passes validation and runs in ".". -/
theorem C9_applyConfig_validation_witness :
    ¬ applyConfigFails ⟨0, "n", "", "txt", true, true, 0, 0, 0, 0, 0, 0, 0, 0⟩ ∧
      (⟨3, ".", "n", "txt", 0, 0, 0, 0, 0, 0, 1000, 0, 0⟩ : RunningState).directory
        = "." :=
  ⟨(C9_applyConfig_validation ⟨0, "n", "", "txt", true, true, 0, 0, 0, 0, 0, 0, 0, 0⟩).1.not.mpr
      (by decide),
    (C9_applyConfig_validation ⟨0, "n", "", "txt", true, true, 0, 0, 0, 0, 0, 0, 0, 0⟩).2
      ⟨3, ".", "n", "txt", 0, 0, 0, 0, 0, 0, 1000, 0, 0⟩
      (by simp [applyConfig]; decide) rfl⟩

/-- C10: in the merge a boolean field equal to false is indistinguishable
from an absent one — getConfigValue keeps the base value whenever the
override equals the zero value of its type — so a display flag that is true
in the base configuration survives every merge: it can never be turned off
through mergeConfigs. -/
theorem C10_merge_cannot_clear_flags (base override : LoggerConfig) :
    (base.ShowTimestamp = true → (mergeConfigs base override).ShowTimestamp = true) ∧
    (base.ShowLevel = true → (mergeConfigs base override).ShowLevel = true) ∧
    (∀ d : Bool, getConfigValue d false = d) := by
  refine ⟨?_, ?_, ?_⟩
  · intro hb
    cases h : override.ShowTimestamp <;>
      simp [mergeConfigs, getConfigValue, GoZero.zero, h, hb]
  · intro hb
    cases h : override.ShowLevel <;>
      simp [mergeConfigs, getConfigValue, GoZero.zero, h, hb]
  · intro d
    simp [getConfigValue, GoZero.zero]

/-- The escape loop is the concatenation of the per-char escapes. -/
theorem writeStringAux_eq_flatMap (l : List Char) :
    writeStringAux l = l.flatMap escapeChar := by
  induction l with
  | nil => rfl
  | cons c r ih => simp [writeStringAux, escapeChar, ih]

/-- A char list without quoting triggers passes through the escape loop
unchanged. -/
theorem writeStringAux_id (l : List Char)
    (h : ∀ c ∈ l, ¬(c < ' ' ∨ c = '"' ∨ c = '\\')) :
    writeStringAux l = l := by
  induction l with
  | nil => rfl
  | cons c r ih =>
      rw [writeStringAux, if_neg (h c (by simp))]
      simpa using ih fun d hd => h d (by simp [hd])

/-- When needsQuotes rejects a string, none of its chars triggers an
escape. -/
theorem needsQuotes_false_no_special (s : String) (h : needsQuotes s = false) :
    ∀ c ∈ s.toList, ¬(c < ' ' ∨ c = '"' ∨ c = '\\') := by
  intro c hc hcond
  unfold needsQuotes at h
  split at h
  · exact Bool.noConfusion h
  · have hdisj : c ≤ ' ' ∨ c = '"' ∨ c = '\\' := by
      rcases hcond with h1 | h1 | h1
      exacts [Or.inl (le_of_lt h1), Or.inr (Or.inl h1), Or.inr (Or.inr h1)]
    have hany : (s.toList.any fun c => c ≤ ' ' || c = '"' || c = '\\') = true :=
      List.any_eq_true.mpr ⟨c, hc, by rcases hdisj with h1 | h1 | h1 <;> simp [h1]⟩
    rw [Bool.eq_false_iff] at h
    exact h hany

/-- The widening loop returns the first candidate not already existing. -/
theorem genTry_eq_find (existing : List String) (bn bt : String) (nanos : Nat)
    (ps : List Nat) :
    genTry existing bn bt nanos ps =
      (ps.map (candidateName bn bt nanos)).find?
        (fun c => !(decide (c ∈ existing))) := by
  induction ps with
  | nil => rfl
  | cons p rest ih =>
      simp only [genTry, List.map_cons]
      by_cases h : candidateName bn bt nanos p ∈ existing
      · rw [if_pos h, ih, List.find?_cons_of_neg]
        simp [h]
      · rw [if_neg h, List.find?_cons_of_pos]
        simp [h]

/-- C8: with no collision the generated name is the
`<name>_<stamp>.<tenths>.log` scheme; in general the result is the first
non-colliding candidate in the digit-by-digit widening order (tenths, then
2..9 subsecond digits); and the generator fails exactly when every
precision up to nanoseconds collides. -/
theorem C8_filename_generation (existing : List String) (bn bt : String)
    (nanos : Nat) :
    (candidateName bn bt nanos 1 ∉ existing →
      generateLogFileName existing bn bt nanos =
        some (bn ++ "_" ++ bt ++ "." ++
          toString (nanos % 1000000000 / 100000000) ++ ".log")) ∧
    (generateLogFileName existing bn bt nanos =
      (precisionList.map (candidateName bn bt nanos)).find?
        (fun c => !(decide (c ∈ existing)))) ∧
    (generateLogFileName existing bn bt nanos = none ↔
      ∀ p ∈ precisionList, candidateName bn bt nanos p ∈ existing) := by
  refine ⟨?_, genTry_eq_find existing bn bt nanos precisionList, ?_⟩
  · intro h
    unfold generateLogFileName precisionList genTry
    rw [if_neg h]
    simp [candidateName]
  · rw [generateLogFileName, genTry_eq_find, List.find?_eq_none]
    constructor
    · intro h p hp
      have := h (candidateName bn bt nanos p) (List.mem_map_of_mem _ hp)
      simpa using this
    · intro h c hc
      obtain ⟨p, hp, rfl⟩ := List.mem_map.mp hc
      simpa using h p hp

/-- Witness for C8: an empty directory takes the base tenths scheme. -/
theorem C8_filename_generation_witness :
    generateLogFileName [] "app" "250101_120000" 987654321 =
      some ("app" ++ "_" ++ "250101_120000" ++ "." ++
        toString (987654321 % 1000000000 / 100000000) ++ ".log") :=
  (C8_filename_generation [] "app" "250101_120000" 987654321).1 (by decide)

/-- C1 counterexample: the claim restricts the sweep's deletions to files
sharing the configured base-name prefix, but cleanExpiredLogs never checks
the prefix — in a directory holding "other.log" with the oldest timestamp,
the sweep's result differs from the claim's (which would keep
"other.log"). -/
theorem C1_retention_sweep_counterexample :
    (retentionTick 1 "app" "log" "app_2.log" 10
        ⟨[⟨"app_1.log", 5, 10⟩, ⟨"other.log", 5, 10⟩], 5⟩).dir ≠
      claimedSweepDir "app" "log" "app_2.log" 5
        [⟨"app_1.log", 5, 10⟩, ⟨"other.log", 5, 10⟩] := by
  decide

/-- C1 amended: a triggered retention sweep (retention enabled, oldest
timestamp valid, elapsed time beyond the period) deletes every file whose
extension matches and whose modification time equals the oldest timestamp
regardless of base-name prefix, never deletes the active file, deletes
nothing else, and recomputes the oldest timestamp by rescanning the swept
directory. -/
theorem C1_retention_sweep (pNs : Int) (baseName ext active : String)
    (now : Nat) (st : RetState)
    (hp : 0 < pNs) (he : st.earliest ≠ 0)
    (hel : (now : Int) - (st.earliest : Int) > pNs) :
    (∀ f ∈ st.dir, goExt f.name = "." ++ ext → f.modTime = st.earliest →
        f.name ≠ active → f ∉ (retentionTick pNs baseName ext active now st).dir) ∧
    (∀ f ∈ st.dir, f.name = active →
        f ∈ (retentionTick pNs baseName ext active now st).dir) ∧
    (∀ f ∈ st.dir,
      (goExt f.name ≠ "." ++ ext ∨ f.modTime ≠ st.earliest ∨ f.name = active) →
        f ∈ (retentionTick pNs baseName ext active now st).dir) ∧
    (∀ f ∈ (retentionTick pNs baseName ext active now st).dir, f ∈ st.dir) ∧
    (retentionTick pNs baseName ext active now st).earliest =
      updateEarliestFileTime baseName ext active
        (cleanExpiredLogs ext active st.earliest st.dir) := by
  have htick : retentionTick pNs baseName ext active now st =
      { dir := cleanExpiredLogs ext active st.earliest st.dir
        earliest := updateEarliestFileTime baseName ext active
          (cleanExpiredLogs ext active st.earliest st.dir) } := by
    unfold retentionTick
    rw [if_pos hp, if_pos ⟨he, hel⟩]
  rw [htick]
  refine ⟨?_, ?_, ?_, ?_, rfl⟩
  · intro f hf h1 h2 h3
    simp [cleanExpiredLogs, List.mem_filter, h1, h2, h3]
  · intro f hf h3
    simp [cleanExpiredLogs, List.mem_filter, h3, hf]
  · intro f hf hcase
    rcases hcase with h1 | h1 | h1 <;>
      simp [cleanExpiredLogs, List.mem_filter, hf, h1]
  · intro f hf
    exact List.mem_of_mem_filter hf

/-- Witness for C1 at a three-file directory holding the active file: the
expired file is removed, the active file survives, a matching-extension
file with a younger modification time also survives, and the watermark is
rescanned. -/
theorem C1_retention_sweep_witness :
    (⟨"app_1.log", 5, 10⟩ : FileEntry) ∉
        (retentionTick 1 "app" "log" "app_2.log" 10
          ⟨[⟨"app_1.log", 5, 10⟩, ⟨"app_3.log", 7, 2⟩, ⟨"app_2.log", 9, 4⟩], 5⟩).dir ∧
      (⟨"app_2.log", 9, 4⟩ : FileEntry) ∈
        (retentionTick 1 "app" "log" "app_2.log" 10
          ⟨[⟨"app_1.log", 5, 10⟩, ⟨"app_3.log", 7, 2⟩, ⟨"app_2.log", 9, 4⟩], 5⟩).dir ∧
      (⟨"app_3.log", 7, 2⟩ : FileEntry) ∈
        (retentionTick 1 "app" "log" "app_2.log" 10
          ⟨[⟨"app_1.log", 5, 10⟩, ⟨"app_3.log", 7, 2⟩, ⟨"app_2.log", 9, 4⟩], 5⟩).dir ∧
      (retentionTick 1 "app" "log" "app_2.log" 10
          ⟨[⟨"app_1.log", 5, 10⟩, ⟨"app_3.log", 7, 2⟩, ⟨"app_2.log", 9, 4⟩], 5⟩).earliest =
        updateEarliestFileTime "app" "log" "app_2.log"
          (cleanExpiredLogs "log" "app_2.log" 5
            [⟨"app_1.log", 5, 10⟩, ⟨"app_3.log", 7, 2⟩, ⟨"app_2.log", 9, 4⟩]) :=
  ⟨(C1_retention_sweep 1 "app" "log" "app_2.log" 10
        ⟨[⟨"app_1.log", 5, 10⟩, ⟨"app_3.log", 7, 2⟩, ⟨"app_2.log", 9, 4⟩], 5⟩
        (by decide) (by decide) (by decide)).1
      ⟨"app_1.log", 5, 10⟩ (by decide) (by decide) rfl (by decide),
    (C1_retention_sweep 1 "app" "log" "app_2.log" 10
        ⟨[⟨"app_1.log", 5, 10⟩, ⟨"app_3.log", 7, 2⟩, ⟨"app_2.log", 9, 4⟩], 5⟩
        (by decide) (by decide) (by decide)).2.1
      ⟨"app_2.log", 9, 4⟩ (by decide) rfl,
    (C1_retention_sweep 1 "app" "log" "app_2.log" 10
        ⟨[⟨"app_1.log", 5, 10⟩, ⟨"app_3.log", 7, 2⟩, ⟨"app_2.log", 9, 4⟩], 5⟩
        (by decide) (by decide) (by decide)).2.2.1
      ⟨"app_3.log", 7, 2⟩ (by decide) (Or.inr (Or.inl (by decide))),
    (C1_retention_sweep 1 "app" "log" "app_2.log" 10
        ⟨[⟨"app_1.log", 5, 10⟩, ⟨"app_3.log", 7, 2⟩, ⟨"app_2.log", 9, 4⟩], 5⟩
        (by decide) (by decide) (by decide)).2.2.2.2⟩

/-- C2: evaluating checkDiskSpace over an episode of three consecutive
failing checks (free space below the minimum, nothing deletable).  The
code returns the disk-full error on the first AND the third check: the
trailing unconditional clear of diskFullLogged runs after the second,
suppressed, failure, so the flag does not stay set for the episode and the
error is re-announced on every other failing check — against both the
claim and the evident edge-trigger intent of the diskFullLogged flag. -/
theorem C2_disk_full_episode_eval :
    (checkDiskSpaceRun ⟨0, 1, "log", "app.log"⟩ [0, 0, 0] ⟨[], false⟩).2 =
        [true, false, true] ∧
      (checkDiskSpaceRun ⟨0, 1, "log", "app.log"⟩ [0, 0, 0] ⟨[], false⟩).2 ≠
        [true, false, false] := by
  constructor
  · decide
  · decide

/-- C6 counterexample: with both display flags set and a non-empty trace
(the inclusion-driving conditions present) an empty argument list emits no
fields key at all, not an empty array as the claim states. -/
theorem C6_empty_fields_counterexample :
    serializeJSON FlagDefault "T" LevelInfo "x" [] =
        "\x7b\"time\":\"T\",\"level\":\"INFO\",\"trace\":\"x\"\x7d\n".toList ∧
      hasSub "\"fields\"".toList (serializeJSON FlagDefault "T" LevelInfo "x" []) =
        false := by
  constructor <;> decide

/-- C6 amended: the JSON serializer emits a single object whose keys come in
the fixed order time, level, trace, fields — time and level exactly when
their flags are set, trace exactly when non-empty, fields exactly when the
argument list is non-empty (an empty argument list emits no fields key) —
with the fields array preserving argument order: the output equals the
comma-join of the present key chunks. -/
theorem C6_json_structure (flags : Nat) (ts : String) (level : Int)
    (trace : String) (args : List GoVal) :
    serializeJSON flags ts level trace args =
      jsonCanonical flags ts level trace args := by
  unfold serializeJSON jsonCanonical jsonKeyChunks
  by_cases hT : flags &&& FlagShowTimestamp ≠ 0 <;>
    by_cases hL : flags &&& FlagShowLevel ≠ 0 <;>
      by_cases hR : trace ≠ "" <;>
        by_cases hA : args.length > 0 <;>
          simp [hT, hL, hR, hA, List.intercalate, List.intersperse]

/-- C7 counterexample: DEL (0x7F) is a control character, yet needsQuotes
does not quote a string holding it (the code only tests runes at or below
the space), and the text writer emits it bare and unescaped. -/
theorem C7_quoting_counterexample :
    needsQuotes (String.mk [Char.ofNat 0x7F]) = false ∧
      claimNeedsQuotes (String.mk [Char.ofNat 0x7F]) = true ∧
      writeTextValue (.vStr (String.mk [Char.ofNat 0x7F])) = [Char.ofNat 0x7F] := by
  refine ⟨?_, ?_, ?_⟩ <;> decide

/-- C7 amended: a string argument is double-quoted exactly when it is empty
or contains a char at or below the space (code point 0x20, covering ASCII
whitespace and the C0 controls but not DEL), a double quote, or a
backslash; the writer escapes exactly the chars below 0x20, the double
quote, and the backslash with one backslash prefix, and an unquoted string
is emitted verbatim. -/
theorem C7_text_quoting (s : String) (l : List Char) :
    (needsQuotes s = true ↔
      s.toList = [] ∨ ∃ c ∈ s.toList, c ≤ ' ' ∨ c = '"' ∨ c = '\\') ∧
    (writeStringAux l = l.flatMap escapeChar) ∧
    (needsQuotes s = false → writeTextString s = s.toList) ∧
    (needsQuotes s = true →
      writeTextString s = '"' :: (s.toList.flatMap escapeChar ++ ['"'])) := by
  refine ⟨?_, writeStringAux_eq_flatMap l, ?_, ?_⟩
  · unfold needsQuotes
    by_cases h0 : s.length = 0
    · rw [if_pos h0]
      have hnil : s.toList = [] := by
        have : s.toList.length = 0 := h0
        exact List.length_eq_zero.mp this
      simp only [if_pos h0, true_iff]
      exact Or.inl hnil
    · rw [if_neg h0]
      have hne : s.toList ≠ [] := by
        intro hnil
        exact h0 (by simp [String.length, show s.data = [] from hnil])
      simp [List.any_eq_true, hne, or_assoc]
      exact fun hnil => absurd hnil hne
  · intro h
    unfold writeTextString
    rw [if_neg (by simp [h])]
    exact writeStringAux_id s.toList (needsQuotes_false_no_special s h)
  · intro h
    unfold writeTextString
    rw [if_pos h]
    rw [writeString, writeStringAux_eq_flatMap]

/-- Witness for C7: "a b" is quoted with its chars preserved, "hello" is
emitted verbatim without quotes. -/
theorem C7_text_quoting_witness :
    ("a b".toList = [] ∨ ∃ c ∈ "a b".toList, c ≤ ' ' ∨ c = '"' ∨ c = '\\') ∧
      writeTextString "hello" = "hello".toList ∧
      writeTextString "a b" = '"' :: ("a b".toList.flatMap escapeChar ++ ['"']) :=
  ⟨(C7_text_quoting "a b" []).1.mp (by decide),
    (C7_text_quoting "hello" []).2.2.1 (by decide),
    (C7_text_quoting "a b" []).2.2.2 (by decide)⟩

/-- Witness for C10: an override that sets both display flags to false
leaves them true after the merge. -/
theorem C10_merge_cannot_clear_flags_witness :
    (mergeConfigs ⟨0, "log", "./logs", "txt", true, true, 1024, 10, 50, 100, 100, 0, 0, 60⟩
        ⟨0, "", "", "", false, false, 0, 0, 0, 0, 0, 0, 0, 0⟩).ShowTimestamp = true ∧
      (mergeConfigs ⟨0, "log", "./logs", "txt", true, true, 1024, 10, 50, 100, 100, 0, 0, 60⟩
        ⟨0, "", "", "", false, false, 0, 0, 0, 0, 0, 0, 0, 0⟩).ShowLevel = true :=
  ⟨(C10_merge_cannot_clear_flags
      ⟨0, "log", "./logs", "txt", true, true, 1024, 10, 50, 100, 100, 0, 0, 60⟩
      ⟨0, "", "", "", false, false, 0, 0, 0, 0, 0, 0, 0, 0⟩).1 rfl,
    (C10_merge_cannot_clear_flags
      ⟨0, "log", "./logs", "txt", true, true, 1024, 10, 50, 100, 100, 0, 0, 60⟩
      ⟨0, "", "", "", false, false, 0, 0, 0, 0, 0, 0, 0, 0⟩).2.1 rfl⟩

end Logger
